import Mathlib

/-!
# Verification of the sawdust geometric modeling kernel

A shallow embedding, over exact real arithmetic, of the rotation algebra
(`src/core/rotation.ts`), the face-edge cut geometry engine
(`src/core/cutGeometry.ts`, staged as `src/unnamed/part_019`), the edge-pivot
cut engine (`src/unnamed/part_017`), and the `ROTATE_SELECTED` branch of the
project store reducer (`src/store/projectStore.tsx`).

Conventions of the embedding:
* JavaScript `number` becomes `ℝ`; the trigonometric functions are the exact
  `Real.cos` / `Real.sin` / `Real.arcsin` / `Real.arctan`.
* Optional fields (`edge?`, `depth?`, `label?`, …) become `Option`; an
  optional boolean read through JavaScript truthiness (`locked`, `hidden`)
  becomes `Bool` with `false` standing for `undefined`.
* Three.js library calls used by the source (`Quaternion.setFromEuler`,
  `Quaternion.setFromAxisAngle`, `Quaternion.multiply`, `Quaternion.invert`,
  `Vector3.applyQuaternion`, `Vector3.normalize`,
  `Euler.setFromQuaternion` for order XYZ, `MathUtils.clamp`, `Math.atan2`)
  are embedded by their three.js definitions.
-/

noncomputable section

namespace Sawdust

open Real

/-- A 3D point / vector with real components (`{ x, y, z }` in the source). -/
@[ext]
structure Vec3 where
  x : ℝ
  y : ℝ
  z : ℝ

/-- Componentwise addition (`Vector3.add`). -/
instance : Add Vec3 := ⟨fun a b => ⟨a.x + b.x, a.y + b.y, a.z + b.z⟩⟩

/-- Componentwise subtraction (`Vector3.sub`). -/
instance : Sub Vec3 := ⟨fun a b => ⟨a.x - b.x, a.y - b.y, a.z - b.z⟩⟩

/-- Scalar multiple (`Vector3.multiplyScalar`). -/
instance : SMul ℝ Vec3 := ⟨fun s v => ⟨s * v.x, s * v.y, s * v.z⟩⟩

theorem Vec3.add_def (a b : Vec3) : a + b = ⟨a.x + b.x, a.y + b.y, a.z + b.z⟩ := rfl

theorem Vec3.sub_def (a b : Vec3) : a - b = ⟨a.x - b.x, a.y - b.y, a.z - b.z⟩ := rfl

theorem Vec3.smul_def (s : ℝ) (v : Vec3) : s • v = ⟨s * v.x, s * v.y, s * v.z⟩ := rfl

/-- Dot product (`Vector3.dot`). -/
def Vec3.dot (a b : Vec3) : ℝ := a.x * b.x + a.y * b.y + a.z * b.z

/-- Squared length (`Vector3.lengthSq`). -/
def Vec3.lengthSq (v : Vec3) : ℝ := v.x * v.x + v.y * v.y + v.z * v.z

/-- Length (`Vector3.length`). -/
def Vec3.length (v : Vec3) : ℝ := Real.sqrt v.lengthSq

/-- `Vector3.normalize`: `divideScalar(this.length() || 1)` — a zero length
falls back to dividing by `1`, so the zero vector stays the zero vector. -/
def Vec3.normalize (v : Vec3) : Vec3 :=
  (1 / (if v.length = 0 then 1 else v.length)) • v

/-- A coordinate axis (the `'x' | 'y' | 'z'` union of the source). -/
inductive Axis where
  | x
  | y
  | z
deriving DecidableEq

/-- The unit vector of an axis (`axisVector` in the edge-pivot engine, and the
`axisVector` ternary inside `addRotationOnAxis`). -/
def axisVec : Axis → Vec3
  | .x => ⟨1, 0, 0⟩
  | .y => ⟨0, 1, 0⟩
  | .z => ⟨0, 0, 1⟩

/-- Component of a vector along an axis (array indexing `v[axisIndex]` with
`{ x: 0, y: 1, z: 2 }`). -/
def Vec3.get (v : Vec3) : Axis → ℝ
  | .x => v.x
  | .y => v.y
  | .z => v.z

/-- Functional update of the component along an axis (the imperative
`v[axisIndex] = r` of the source). -/
def Vec3.setAxis (v : Vec3) : Axis → ℝ → Vec3
  | .x, r => ⟨r, v.y, v.z⟩
  | .y, r => ⟨v.x, r, v.z⟩
  | .z, r => ⟨v.x, v.y, r⟩

/-- Box dimensions `{ width, height, depth }` (meters, all positive). -/
structure Dimensions where
  width : ℝ
  height : ℝ
  depth : ℝ

/-! ## RotationAlgebra — `src/core/rotation.ts` -/

/-- `rotatePositionAroundAxis`: rotates `pos` around `center` on a given world
axis by `angle` radians, by the closed-form 2D rotation in the plane
perpendicular to the axis. -/
def rotatePositionAroundAxis (pos center : Vec3) (axis : Axis) (angle : ℝ) : Vec3 :=
  let c := Real.cos angle
  let s := Real.sin angle
  match axis with
  | .y =>
      -- Y rotation matrix: [cos, 0, sin; 0, 1, 0; -sin, 0, cos]
      let dx := pos.x - center.x
      let dz := pos.z - center.z
      ⟨center.x + dx * c + dz * s, pos.y, center.z - dx * s + dz * c⟩
  | .x =>
      let dy := pos.y - center.y
      let dz := pos.z - center.z
      ⟨pos.x, center.y + dy * c - dz * s, center.z + dy * s + dz * c⟩
  | .z =>
      let dx := pos.x - center.x
      let dy := pos.y - center.y
      ⟨center.x + dx * c - dy * s, center.y + dx * s + dy * c, pos.z⟩

/-- `applyEulerToVec`: applies an XYZ-order Euler rotation to a vector,
rotating around Z first, then Y, then X; each stage is skipped when its
angle is exactly zero, as in the source. -/
def applyEulerToVec (v : Vec3) (rot : Vec3) : Vec3 :=
  -- 1. Rotate around Z first
  let p1 : Vec3 :=
    if rot.z = 0 then v else
      let c := Real.cos rot.z
      let s := Real.sin rot.z
      ⟨v.x * c - v.y * s, v.x * s + v.y * c, v.z⟩
  -- 2. Then rotate around Y
  let p2 : Vec3 :=
    if rot.y = 0 then p1 else
      let c := Real.cos rot.y
      let s := Real.sin rot.y
      ⟨p1.x * c + p1.z * s, p1.y, -p1.x * s + p1.z * c⟩
  -- 3. Then rotate around X
  if rot.x = 0 then p2 else
    let c := Real.cos rot.x
    let s := Real.sin rot.x
    ⟨p2.x, p2.y * c - p2.z * s, p2.y * s + p2.z * c⟩

/-- `boxVisualCenter`: corner position plus the rotated half-dimensions. -/
def boxVisualCenter (position : Vec3) (dimensions : Dimensions) (rotation : Vec3) : Vec3 :=
  let halfDims : Vec3 := ⟨dimensions.width / 2, dimensions.height / 2, dimensions.depth / 2⟩
  let rotated := applyEulerToVec halfDims rotation
  ⟨position.x + rotated.x, position.y + rotated.y, position.z + rotated.z⟩

/-- `cornerFromVisualCenter`: visual center minus the rotated half-dimensions. -/
def cornerFromVisualCenter (visualCenter : Vec3) (dimensions : Dimensions) (rotation : Vec3) : Vec3 :=
  let halfDims : Vec3 := ⟨dimensions.width / 2, dimensions.height / 2, dimensions.depth / 2⟩
  let rotated := applyEulerToVec halfDims rotation
  ⟨visualCenter.x - rotated.x, visualCenter.y - rotated.y, visualCenter.z - rotated.z⟩

/-! ## Three.js quaternion and Euler helpers used by the source -/

/-- A quaternion `x·i + y·j + z·k + w` (three.js `Quaternion`). -/
@[ext]
structure Quat where
  x : ℝ
  y : ℝ
  z : ℝ
  w : ℝ

/-- `Quaternion.setFromEuler` for order `'XYZ'`. -/
def quatFromEuler (rot : Vec3) : Quat :=
  let c1 := Real.cos (rot.x / 2)
  let c2 := Real.cos (rot.y / 2)
  let c3 := Real.cos (rot.z / 2)
  let s1 := Real.sin (rot.x / 2)
  let s2 := Real.sin (rot.y / 2)
  let s3 := Real.sin (rot.z / 2)
  ⟨s1 * c2 * c3 + c1 * s2 * s3,
   c1 * s2 * c3 - s1 * c2 * s3,
   c1 * c2 * s3 + s1 * s2 * c3,
   c1 * c2 * c3 - s1 * s2 * s3⟩

/-- `Quaternion.setFromAxisAngle` (axis assumed normalized by three.js). -/
def quatFromAxisAngle (axis : Vec3) (angle : ℝ) : Quat :=
  let s := Real.sin (angle / 2)
  ⟨axis.x * s, axis.y * s, axis.z * s, Real.cos (angle / 2)⟩

/-- `Quaternion.multiplyQuaternions(a, b)` (Hamilton product `a * b`). -/
def quatMul (a b : Quat) : Quat :=
  ⟨a.x * b.w + a.w * b.x + a.y * b.z - a.z * b.y,
   a.y * b.w + a.w * b.y + a.z * b.x - a.x * b.z,
   a.z * b.w + a.w * b.z + a.x * b.y - a.y * b.x,
   a.w * b.w - a.x * b.x - a.y * b.y - a.z * b.z⟩

/-- `Quaternion.conjugate`; three.js `Quaternion.invert` is exactly this
(the quaternion is assumed to have unit length). -/
def quatConjugate (q : Quat) : Quat := ⟨-q.x, -q.y, -q.z, q.w⟩

/-- Squared norm of a quaternion. -/
def quatNormSq (q : Quat) : ℝ := q.x * q.x + q.y * q.y + q.z * q.z + q.w * q.w

/-- `Vector3.applyQuaternion`: `v + w·t + q×t` with `t = 2·(q × v)`, the
three.js formula for rotating a vector by a (unit) quaternion. -/
def vecApplyQuaternion (v : Vec3) (q : Quat) : Vec3 :=
  let tx := 2 * (q.y * v.z - q.z * v.y)
  let ty := 2 * (q.z * v.x - q.x * v.z)
  let tz := 2 * (q.x * v.y - q.y * v.x)
  ⟨v.x + q.w * tx + q.y * tz - q.z * ty,
   v.y + q.w * ty + q.z * tx - q.x * tz,
   v.z + q.w * tz + q.x * ty - q.y * tx⟩

/-- The quaternion with vector part `v` and zero scalar part (for reasoning
about quaternion conjugation; not a source function). -/
def quatPure (v : Vec3) : Quat := ⟨v.x, v.y, v.z, 0⟩

/-- The vector part of a quaternion (for reasoning; not a source function). -/
def quatVecPart (q : Quat) : Vec3 := ⟨q.x, q.y, q.z⟩

/-- Rotation of a vector by true quaternion conjugation `q · (0,v) · q⋆`
(for reasoning; agrees with `vecApplyQuaternion` on unit quaternions). -/
def conjApplyVec (v : Vec3) (q : Quat) : Vec3 :=
  quatVecPart (quatMul (quatMul q (quatPure v)) (quatConjugate q))

/-- `MathUtils.clamp(value, min, max) = Math.max(min, Math.min(max, value))`. -/
def clamp (value lo hi : ℝ) : ℝ := max lo (min hi value)

/-- `Math.atan2(y, x)`: the angle of the point `(x, y)` in `(-π, π]`,
embedded by the standard case split on the quadrant. -/
def atan2 (y x : ℝ) : ℝ :=
  if 0 < x then Real.arctan (y / x)
  else if x < 0 then
    (if 0 ≤ y then Real.arctan (y / x) + Real.pi else Real.arctan (y / x) - Real.pi)
  else
    (if 0 < y then Real.pi / 2 else if y < 0 then -(Real.pi / 2) else 0)

/-- `Euler.setFromQuaternion(q, 'XYZ')`: builds the rotation matrix of `q`
(`Matrix4.makeRotationFromQuaternion`) and decomposes it in XYZ order
(`Euler.setFromRotationMatrix`), with three.js's `0.9999999` gimbal-lock
threshold. -/
def eulerFromQuat (q : Quat) : Vec3 :=
  let m11 := 1 - 2 * (q.y * q.y + q.z * q.z)
  let m12 := 2 * (q.x * q.y - q.w * q.z)
  let m13 := 2 * (q.x * q.z + q.w * q.y)
  let m22 := 1 - 2 * (q.x * q.x + q.z * q.z)
  let m23 := 2 * (q.y * q.z - q.w * q.x)
  let m32 := 2 * (q.y * q.z + q.w * q.x)
  let m33 := 1 - 2 * (q.x * q.x + q.y * q.y)
  let ey := Real.arcsin (clamp m13 (-1) 1)
  if |m13| < 0.9999999 then
    ⟨atan2 (-m23) m33, ey, atan2 (-m12) m11⟩
  else
    ⟨atan2 m32 m22, ey, 0⟩

/-- The quaternion `addRotationOnAxis` builds before decomposing back to
Euler angles: the delta quaternion pre-multiplied onto the current one
(`deltaQuat.multiply(currentQuat)`), so the delta acts in world space. -/
def nextWorldQuat (rotation : Vec3) (axis : Axis) (angle : ℝ) : Quat :=
  quatMul (quatFromAxisAngle (axisVec axis) angle) (quatFromEuler rotation)

/-- `addRotationOnAxis`: applies an incremental world-axis rotation to an
existing Euler rotation via quaternion composition. -/
def addRotationOnAxis (rotation : Vec3) (axis : Axis) (angle : ℝ) : Vec3 :=
  eulerFromQuat (nextWorldQuat rotation axis angle)

/-! ## CutGeometryEngine, face-edge model — `src/unnamed/part_019` -/

/-- The six axis-aligned faces of a box (`CutFace`). -/
inductive CutFace where
  | top
  | bottom
  | front
  | back
  | left
  | right
deriving DecidableEq

/-- The adjacent face whose shared edge the blade enters from (`CutEdge`). -/
inductive CutEdge where
  | top
  | bottom
  | front
  | back
deriving DecidableEq

/-- Per-face configuration: normal axis and direction, pivot axis, and the
fixed rotation-sign convention (`FaceConfig`). The `1 | -1` fields are kept
as real numbers, as the source multiplies them directly into angles. -/
structure FaceConfig where
  normalAxis : Axis
  normalDir : ℝ
  pivotAxis : Axis
  rotationSign : ℝ

/-- The static `FACE_CONFIG` table. -/
def FACE_CONFIG : CutFace → FaceConfig
  | .top => ⟨.y, 1, .x, 1⟩
  | .bottom => ⟨.y, -1, .x, -1⟩
  | .front => ⟨.z, 1, .x, -1⟩
  | .back => ⟨.z, -1, .x, 1⟩
  | .right => ⟨.x, 1, .y, -1⟩
  | .left => ⟨.x, -1, .y, 1⟩

/-- The static `DEFAULT_EDGE` table: blade-entry edge when none is given. -/
def DEFAULT_EDGE : CutFace → CutEdge
  | .top => .back
  | .bottom => .back
  | .front => .bottom
  | .back => .bottom
  | .left => .back
  | .right => .back

/-- The static `EDGE_DIR` table: direction along the sweep axis per edge. -/
def EDGE_DIR : CutEdge → ℝ
  | .front => 1
  | .back => -1
  | .top => 1
  | .bottom => -1

/-- `otherAxis`: the axis perpendicular to both given axes. -/
def otherAxis (a b : Axis) : Axis :=
  if (a = .x ∧ b = .y) ∨ (a = .y ∧ b = .x) then .z
  else if (a = .x ∧ b = .z) ∨ (a = .z ∧ b = .x) then .y
  else .x

/-- `rotateVec3`: rotates a 3D vector around the given axis by `angle`
radians (right-handed three.js convention). -/
def rotateVec3 (v : Vec3) (axis : Axis) (angle : ℝ) : Vec3 :=
  let c := Real.cos angle
  let s := Real.sin angle
  match axis with
  | .x => ⟨v.x, v.y * c - v.z * s, v.y * s + v.z * c⟩
  | .y => ⟨v.x * c + v.z * s, v.y, -v.x * s + v.z * c⟩
  | .z => ⟨v.x * c - v.y * s, v.x * s + v.y * c, v.z⟩

/-- A face-edge cut record (`BoxCut`): face, angle in degrees, optional
entry edge, optional depth in meters. -/
structure BoxCut where
  id : String
  face : CutFace
  angle : ℝ
  edge : Option CutEdge
  depth : Option ℝ

/-- The pose of a cutter solid (`CutterProps`). -/
@[ext]
structure CutterProps where
  position : Vec3
  rotation : Vec3
  scale : Vec3

/-- Half-dimension of a box along an axis (the `halfDim` record). -/
def halfDimOf (dims : Dimensions) : Axis → ℝ
  | .x => dims.width / 2
  | .y => dims.height / 2
  | .z => dims.depth / 2

/-- Full dimension of a box along an axis (the `fullDim` lookup). -/
def dimAlong (dims : Dimensions) : Axis → ℝ
  | .x => dims.width
  | .y => dims.height
  | .z => dims.depth

/-- The cutter edge length: `Math.max(w, h, d) * 3`, oversized so it fully
covers the cut region. -/
def cutterSizeOf (dims : Dimensions) : ℝ :=
  max (max dims.width dims.height) dims.depth * 3

/-- The entry edge of a cut: explicit, or the per-face default
(`cut.edge ?? DEFAULT_EDGE[cut.face]`). -/
def resolvedEdge (cut : BoxCut) : CutEdge :=
  cut.edge.getD (DEFAULT_EDGE cut.face)

/-- The signed rotation angle of the cutter:
`pivotEdgeSign * config.rotationSign * angleRad` where
`pivotEdgeSign = -entryDir`. -/
def cutRotationAngle (cut : BoxCut) : ℝ :=
  -EDGE_DIR (resolvedEdge cut) * (FACE_CONFIG cut.face).rotationSign *
    (cut.angle * Real.pi / 180)

/-- The pivot point of a face-edge cut: on the face plane along the normal
axis, at the edge opposite the blade entry along the edge axis, shifted
inward by `fullDim - depth` along the normal axis for partial-depth cuts. -/
def cutPivot (dims : Dimensions) (cut : BoxCut) : Vec3 :=
  let config := FACE_CONFIG cut.face
  let pivotEdgeSign := -EDGE_DIR (resolvedEdge cut)
  let p0 := (Vec3.mk 0 0 0).setAxis config.normalAxis
    (config.normalDir * halfDimOf dims config.normalAxis)
  let edgeAxis := otherAxis config.normalAxis config.pivotAxis
  let p1 := p0.setAxis edgeAxis (pivotEdgeSign * halfDimOf dims edgeAxis)
  match cut.depth with
  | none => p1
  | some depth =>
      let inset := dimAlong dims config.normalAxis - depth
      p1.setAxis config.normalAxis (p1.get config.normalAxis - config.normalDir * inset)

/-- `buildCutterProps`: position, rotation and scale of the oversized cutter
box whose CSG subtraction produces the angled cut. -/
def buildCutterProps (dims : Dimensions) (cut : BoxCut) : CutterProps :=
  let config := FACE_CONFIG cut.face
  let cutterSize := cutterSizeOf dims
  let rotationAngle := cutRotationAngle cut
  let pivot := cutPivot dims cut
  -- Cutter center starts directly outside the face
  let relVec := (Vec3.mk 0 0 0).setAxis config.normalAxis (config.normalDir * cutterSize / 2)
  -- Rotate the relative vector around the pivot axis so the cutter pivots at the face edge
  let rotatedRelVec := rotateVec3 relVec config.pivotAxis rotationAngle
  let pos := pivot + rotatedRelVec
  let rot := (Vec3.mk 0 0 0).setAxis config.pivotAxis rotationAngle
  ⟨pos, rot, ⟨cutterSize, cutterSize, cutterSize⟩⟩

/-! ## CutGeometryEngine, edge-pivot model — `src/unnamed/part_017` -/

/-- The twelve box edges, named by the pair of faces they join
(`BetaMiterEdge`). -/
inductive BetaMiterEdge where
  | topFront
  | topBack
  | bottomFront
  | bottomBack
  | topLeft
  | topRight
  | bottomLeft
  | bottomRight
  | frontLeft
  | frontRight
  | backLeft
  | backRight
deriving DecidableEq

/-- An edge's configuration (`EdgeConfig`): the axis the edge runs along and
the signed offsets of the edge on the other two axes. The source's optional
`-1 | 1` fields are read only through `?? 0`, so an absent field is embedded
as `0`. -/
structure EdgeConfig where
  axis : Axis
  x : ℝ
  y : ℝ
  z : ℝ

/-- The static `EDGE_CONFIG` table. -/
def EDGE_CONFIG : BetaMiterEdge → EdgeConfig
  | .topFront => ⟨.x, 0, 1, 1⟩
  | .topBack => ⟨.x, 0, 1, -1⟩
  | .bottomFront => ⟨.x, 0, -1, 1⟩
  | .bottomBack => ⟨.x, 0, -1, -1⟩
  | .topLeft => ⟨.z, -1, 1, 0⟩
  | .topRight => ⟨.z, 1, 1, 0⟩
  | .bottomLeft => ⟨.z, -1, -1, 0⟩
  | .bottomRight => ⟨.z, 1, -1, 0⟩
  | .frontLeft => ⟨.y, -1, 0, 1⟩
  | .frontRight => ⟨.y, 1, 0, 1⟩
  | .backLeft => ⟨.y, -1, 0, -1⟩
  | .backRight => ⟨.y, 1, 0, -1⟩

/-- The static `FACE_NORMAL` table: outward unit normal of each face. -/
def FACE_NORMAL : CutFace → Vec3
  | .left => ⟨-1, 0, 0⟩
  | .right => ⟨1, 0, 0⟩
  | .bottom => ⟨0, -1, 0⟩
  | .top => ⟨0, 1, 0⟩
  | .back => ⟨0, 0, -1⟩
  | .front => ⟨0, 0, 1⟩

/-- `getEdgePivot`: the midpoint of an edge of the (origin-centered) box. -/
def getEdgePivot (edge : BetaMiterEdge) (dims : Dimensions) : Vec3 :=
  let config := EDGE_CONFIG edge
  ⟨config.x * (dims.width / 2), config.y * (dims.height / 2), config.z * (dims.depth / 2)⟩

/-- `getFaceCenter`: the center of a face of the (origin-centered) box. -/
def getFaceCenter (face : CutFace) (dims : Dimensions) : Vec3 :=
  match face with
  | .left => ⟨-(dims.width / 2), 0, 0⟩
  | .right => ⟨dims.width / 2, 0, 0⟩
  | .bottom => ⟨0, -(dims.height / 2), 0⟩
  | .top => ⟨0, dims.height / 2, 0⟩
  | .back => ⟨0, 0, -(dims.depth / 2)⟩
  | .front => ⟨0, 0, dims.depth / 2⟩

/-- `pointInsideRotatedCube`: inverse-rotate the point into the cube's local
frame (`applyQuaternion(rotation.invert())`, where three.js `invert` is the
conjugate) and test all three axes against half the size plus the `1e-6`
slack. -/
def pointInsideRotatedCube (point center : Vec3) (rotation : Quat) (size : ℝ) : Prop :=
  let lcl := vecApplyQuaternion (point - center) (quatConjugate rotation)
  let half := size / 2 + 1e-6
  |lcl.x| ≤ half ∧ |lcl.y| ≤ half ∧ |lcl.z| ≤ half

/-- An edge-pivot cut record (`BetaMiterCut`): edge, entry face, angle in
degrees. -/
structure BetaMiterCut where
  id : String
  edge : BetaMiterEdge
  entryFace : CutFace
  angle : ℝ

/-- The cut angle of an edge-pivot cut in radians. -/
def betaAngleRad (cut : BetaMiterCut) : ℝ := cut.angle * Real.pi / 180

/-- The `outsideVector` of `buildBetaMiterCutterProps`: the entry-face normal
scaled by half the cutter size. -/
def betaOutsideVector (dims : Dimensions) (cut : BetaMiterCut) : Vec3 :=
  (cutterSizeOf dims / 2) • FACE_NORMAL cut.entryFace

/-- The `+angle` candidate rotation (`plusRotation`): rotation about the
edge direction by `+angleRad`. -/
def betaPlusRotation (cut : BetaMiterCut) : Quat :=
  quatFromAxisAngle (axisVec (EDGE_CONFIG cut.edge).axis) (betaAngleRad cut)

/-- The `-angle` candidate rotation (`minusRotation`): rotation about the
edge direction by `-angleRad`. -/
def betaMinusRotation (cut : BetaMiterCut) : Quat :=
  quatFromAxisAngle (axisVec (EDGE_CONFIG cut.edge).axis) (-betaAngleRad cut)

/-- The cutter center a candidate rotation produces: the outside vector
rotated by the candidate and translated to the edge pivot. -/
def betaCandidateCenter (dims : Dimensions) (cut : BetaMiterCut) (q : Quat) : Vec3 :=
  vecApplyQuaternion (betaOutsideVector dims cut) q + getEdgePivot cut.edge dims

/-- The full cutter pose a candidate rotation produces: its center, its
rotation decomposed to XYZ Euler angles, and the uniform oversized scale. -/
def betaCandidatePose (dims : Dimensions) (cut : BetaMiterCut) (q : Quat) : CutterProps :=
  ⟨betaCandidateCenter dims cut q, eulerFromQuat q,
   ⟨cutterSizeOf dims, cutterSizeOf dims, cutterSizeOf dims⟩⟩

/-- The probe `samplePoint` of `buildBetaMiterCutterProps`: the pivot, swept
`0.06` toward the entry face's center (component orthogonal to the edge
direction and the face normal, normalized, with fallback `(1,0,0)` when the
normalized direction is degenerate) and nudged `0.002` inward. The two
in-place `sub` calls of the source are sequential, so the second projection
uses the already-projected vector. -/
def betaSamplePoint (dims : Dimensions) (cut : BetaMiterCut) : Vec3 :=
  let edgeDir := axisVec (EDGE_CONFIG cut.edge).axis
  let faceNormal := FACE_NORMAL cut.entryFace
  let pivot := getEdgePivot cut.edge dims
  let faceCenter := getFaceCenter cut.entryFace dims
  let inward := (-1 : ℝ) • faceNormal
  let towardCenter := faceCenter - pivot
  let t1 := towardCenter - (towardCenter.dot edgeDir) • edgeDir
  let t2 := t1 - (t1.dot faceNormal) • faceNormal
  let sweepDir := t2.normalize
  let sweep := if sweepDir.lengthSq > 0.5 then sweepDir else ⟨1, 0, 0⟩
  pivot + (0.06 : ℝ) • sweep + (0.002 : ℝ) • inward

/-- Whether the probe point lies inside the `+angle` candidate's cube
(`plusHitsInterior`). -/
def betaPlusHits (dims : Dimensions) (cut : BetaMiterCut) : Prop :=
  pointInsideRotatedCube (betaSamplePoint dims cut)
    (betaCandidateCenter dims cut (betaPlusRotation cut)) (betaPlusRotation cut)
    (cutterSizeOf dims)

/-- Whether the probe point lies inside the `-angle` candidate's cube
(`minusHitsInterior`). -/
def betaMinusHits (dims : Dimensions) (cut : BetaMiterCut) : Prop :=
  pointInsideRotatedCube (betaSamplePoint dims cut)
    (betaCandidateCenter dims cut (betaMinusRotation cut)) (betaMinusRotation cut)
    (cutterSizeOf dims)

open Classical in
/-- `buildBetaMiterCutterProps`: computes both candidate poses, probes which
one contains the sample point, and returns the selected pose
(`plusHitsInterior || !minusHitsInterior ? plusRotation : minusRotation`). -/
def buildBetaMiterCutterProps (dims : Dimensions) (cut : BetaMiterCut) : CutterProps :=
  let finalRotation :=
    if betaPlusHits dims cut ∨ ¬betaMinusHits dims cut
    then betaPlusRotation cut
    else betaMinusRotation cut
  ⟨betaCandidateCenter dims cut finalRotation, eulerFromQuat finalRotation,
   ⟨cutterSizeOf dims, cutterSizeOf dims, cutterSizeOf dims⟩⟩

/-- `faceFromNormal`: the face whose outward axis strictly dominates the
normal in absolute value, or `null` when no coordinate strictly exceeds
both others. -/
def faceFromNormal (normal : Vec3) : Option CutFace :=
  let ax := |normal.x|
  let ay := |normal.y|
  let az := |normal.z|
  if ax > ay ∧ ax > az then some (if normal.x > 0 then .right else .left)
  else if ay > ax ∧ ay > az then some (if normal.y > 0 then .top else .bottom)
  else if az > ax ∧ az > ay then some (if normal.z > 0 then .front else .back)
  else none

/-! ## Project store — `src/store/projectStore.tsx`, `ROTATE_SELECTED` -/

/-- A box record (`Box` in `src/types`). Optional booleans read through
JavaScript truthiness become `Bool` with `false` for `undefined`; optional
lists become lists with `[]` for `undefined`. -/
structure Box where
  id : String
  position : Vec3
  dimensions : Dimensions
  rotation : Vec3
  materialId : String
  label : Option String
  groupId : Option String
  locked : Bool
  hidden : Bool
  cuts : List BoxCut
  betaMiterCuts : List BetaMiterCut

/-- The unit-system union of the source. -/
inductive UnitSystem where
  | feet
  | inches
  | metric
deriving DecidableEq

/-- A project record (`Project`). -/
structure Project where
  id : String
  name : String
  unitSystem : UnitSystem
  boxes : List Box

/-- A saved component template (`ComponentTemplate`), as far as the reducer
reads it: its identity and its box list. -/
structure ComponentTemplate where
  id : String
  name : String
  boxes : List Box

/-- The store mode union (`"project" | "component-builder"`). -/
inductive StoreMode where
  | project
  | componentBuilder
deriving DecidableEq

/-- The reducer state (`ProjectState`). -/
structure ProjectState where
  project : Project
  selectedBoxIds : List String
  isLoading : Bool
  mode : StoreMode
  currentTemplate : Option ComponentTemplate
  componentLibrary : List ComponentTemplate
  clipboard : Option (List Box)
  snapEnabled : Bool
  toastMessage : Option String
  history : List (List Box)
  historyIndex : Int
  historyBatchAnchor : Option (List Box)

/-- `getActiveBoxes`: the template's boxes in component-builder mode
(empty when there is no current template), the project's boxes otherwise. -/
def getActiveBoxes (state : ProjectState) : List Box :=
  match state.mode with
  | .componentBuilder => (state.currentTemplate.map ComponentTemplate.boxes).getD []
  | .project => state.project.boxes

/-- `setActiveBoxes`: writes the box list back into the current template in
component-builder mode (when one exists), into the project otherwise. -/
def setActiveBoxes (state : ProjectState) (boxes : List Box) : ProjectState :=
  match state.mode, state.currentTemplate with
  | .componentBuilder, some t =>
      { state with currentTemplate := some { t with boxes := boxes } }
  | _, _ =>
      { state with project := { state.project with boxes := boxes } }

/-- Minimum of a list of reals. The source seeds its fold with `Infinity`;
exact reals have no infinities, so the fold runs over the list directly,
which agrees with the source whenever the list is nonempty — the only case
in which the reducer uses the value. -/
def listMin : List ℝ → ℝ
  | [] => 0
  | a :: l => l.foldl min a

/-- Maximum of a list of reals; see `listMin` about the `-Infinity` seed. -/
def listMax : List ℝ → ℝ
  | [] => 0
  | a :: l => l.foldl max a

/-- The group pivot of `ROTATE_SELECTED`: the axis-aligned bounding-box
center of the target boxes' visual centers. -/
def rotationPivotOf (visualCenters : List Vec3) : Vec3 :=
  ⟨(listMin (visualCenters.map Vec3.x) + listMax (visualCenters.map Vec3.x)) / 2,
   (listMin (visualCenters.map Vec3.y) + listMax (visualCenters.map Vec3.y)) / 2,
   (listMin (visualCenters.map Vec3.z) + listMax (visualCenters.map Vec3.z)) / 2⟩

/-- The per-box update of `ROTATE_SELECTED`: rotate the visual center around
the group pivot, compose the box's own rotation, and back-compute the corner
position — only `position` and `rotation` are replaced. -/
def rotateSelectedBox (pivot : Vec3) (axis : Axis) (angle : ℝ) (box : Box) : Box :=
  let vc := boxVisualCenter box.position box.dimensions box.rotation
  let newVc := rotatePositionAroundAxis vc pivot axis angle
  let newRotation := addRotationOnAxis box.rotation axis angle
  let newPosition := cornerFromVisualCenter newVc box.dimensions newRotation
  { box with position := newPosition, rotation := newRotation }

/-- The `ROTATE_SELECTED` branch of `projectReducer`: filter the selected,
unlocked boxes; if none, return the state unchanged; otherwise rotate each
target box about the shared pivot and write the mapped list back. -/
def reduceRotateSelected (state : ProjectState) (ids : List String) (angle : ℝ)
    (axis : Axis) : ProjectState :=
  let allBoxes := getActiveBoxes state
  let targetBoxes := allBoxes.filter (fun b => decide (b.id ∈ ids) && !b.locked)
  if targetBoxes.length = 0 then state
  else
    let visualCenters := targetBoxes.map
      (fun b => boxVisualCenter b.position b.dimensions b.rotation)
    let pivot := rotationPivotOf visualCenters
    let boxes := allBoxes.map (fun box =>
      if box.id ∉ ids ∨ box.locked = true then box
      else rotateSelectedBox pivot axis angle box)
    setActiveBoxes state boxes

/-! ## Theorems -/

/-- Claim C1: for every position, dimensions and rotation, converting the
corner to the visual center and back is the identity — exactly, over real
arithmetic. -/
theorem corner_visualCenter_roundTrip (position : Vec3) (dimensions : Dimensions)
    (rotation : Vec3) :
    cornerFromVisualCenter (boxVisualCenter position dimensions rotation) dimensions rotation
      = position := by
  ext <;> simp [cornerFromVisualCenter, boxVisualCenter]

/-- Claim C10: `faceFromNormal` returns a face exactly when one coordinate
of the normal strictly exceeds both others in absolute value; on ties —
including the diagonal normal `(1,1,0)` and the zero vector — it returns
`none`. -/
theorem faceFromNormal_dominant :
    (∀ normal : Vec3, (faceFromNormal normal).isSome ↔
        (|normal.x| > |normal.y| ∧ |normal.x| > |normal.z|) ∨
        (|normal.y| > |normal.x| ∧ |normal.y| > |normal.z|) ∨
        (|normal.z| > |normal.x| ∧ |normal.z| > |normal.y|)) ∧
    faceFromNormal ⟨1, 1, 0⟩ = none ∧ faceFromNormal ⟨0, 0, 0⟩ = none := by
  refine ⟨fun normal => ?_, ?_, ?_⟩
  · unfold faceFromNormal
    by_cases h1 : |normal.x| > |normal.y| ∧ |normal.x| > |normal.z|
    · simp [h1]
    · by_cases h2 : |normal.y| > |normal.x| ∧ |normal.y| > |normal.z|
      · simp [h1, h2]
      · by_cases h3 : |normal.z| > |normal.x| ∧ |normal.z| > |normal.y|
        · simp [h1, h2, h3]
        · simp [h1, h2, h3]
  · unfold faceFromNormal
    norm_num
  · unfold faceFromNormal
    norm_num

/-- Claim C5 counterexample: rotating the first visual center `(0,0,0)` by
`π/2` about the world Y axis through pivot `(1,0,0)` yields `(1,0,1)`, not
the `(1,0,-1)` the claim states. -/
theorem rotateGroup_first_center_counterexample :
    rotatePositionAroundAxis ⟨0, 0, 0⟩ ⟨1, 0, 0⟩ Axis.y (Real.pi / 2) ≠ ⟨1, 0, -1⟩ := by
  unfold rotatePositionAroundAxis
  simp [Real.cos_pi_div_two, Real.sin_pi_div_two, Vec3.mk.injEq]
  norm_num

/-- Claim C5 (amended): the group rotation by `π/2` about the world Y axis
through pivot `(1,0,0)` carries the visual centers `(0,0,0)` and `(2,0,0)`
to `(1,0,1)` and `(1,0,-1)` respectively (the claim swaps the two), and the
distance between the two rotated centers is still `2`. -/
theorem rotateGroup_rigidity :
    rotatePositionAroundAxis ⟨0, 0, 0⟩ ⟨1, 0, 0⟩ Axis.y (Real.pi / 2) = ⟨1, 0, 1⟩ ∧
    rotatePositionAroundAxis ⟨2, 0, 0⟩ ⟨1, 0, 0⟩ Axis.y (Real.pi / 2) = ⟨1, 0, -1⟩ ∧
    Real.sqrt
      (((rotatePositionAroundAxis ⟨0, 0, 0⟩ ⟨1, 0, 0⟩ Axis.y (Real.pi / 2)).x -
            (rotatePositionAroundAxis ⟨2, 0, 0⟩ ⟨1, 0, 0⟩ Axis.y (Real.pi / 2)).x) ^ 2 +
        ((rotatePositionAroundAxis ⟨0, 0, 0⟩ ⟨1, 0, 0⟩ Axis.y (Real.pi / 2)).y -
            (rotatePositionAroundAxis ⟨2, 0, 0⟩ ⟨1, 0, 0⟩ Axis.y (Real.pi / 2)).y) ^ 2 +
        ((rotatePositionAroundAxis ⟨0, 0, 0⟩ ⟨1, 0, 0⟩ Axis.y (Real.pi / 2)).z -
            (rotatePositionAroundAxis ⟨2, 0, 0⟩ ⟨1, 0, 0⟩ Axis.y (Real.pi / 2)).z) ^ 2) = 2 := by
  have ha : rotatePositionAroundAxis ⟨0, 0, 0⟩ ⟨1, 0, 0⟩ Axis.y (Real.pi / 2) = ⟨1, 0, 1⟩ := by
    unfold rotatePositionAroundAxis
    ext <;> simp [Real.cos_pi_div_two, Real.sin_pi_div_two]
  have hb : rotatePositionAroundAxis ⟨2, 0, 0⟩ ⟨1, 0, 0⟩ Axis.y (Real.pi / 2) = ⟨1, 0, -1⟩ := by
    unfold rotatePositionAroundAxis
    ext <;> simp [Real.cos_pi_div_two, Real.sin_pi_div_two]
    norm_num
  refine ⟨ha, hb, ?_⟩
  rw [ha, hb]
  have h4 : ((1 : ℝ) - 1) ^ 2 + ((0 : ℝ) - 0) ^ 2 + ((1 : ℝ) - (-1)) ^ 2 = 2 ^ 2 := by
    norm_num
  show Real.sqrt (((1 : ℝ) - 1) ^ 2 + ((0 : ℝ) - 0) ^ 2 + ((1 : ℝ) - (-1)) ^ 2) = 2
  rw [h4, Real.sqrt_sq (by norm_num)]

/-- Rotating a vector by a zero angle is the identity (helper). -/
theorem rotateVec3_zero_angle (v : Vec3) (axis : Axis) : rotateVec3 v axis 0 = v := by
  cases axis <;> ext <;> simp [rotateVec3]

/-- The cutter size of the unit cube is `3` (helper). -/
theorem cutterSizeOf_unit : cutterSizeOf ⟨1, 1, 1⟩ = 3 := by
  norm_num [cutterSizeOf]

/-- Claim C2: for dimensions `(1,1,1)`, cut `face='top', edge='front',
angle=45`, no depth: the pivot is `(0, 1/2, -1/2)` (the back edge, opposite
the front entry), the rotation angle is `pivotSign(-1) · faceSign(+1) · π/4
= -π/4`, the returned rotation triple is `(-π/4, 0, 0)`, and the returned
position is the pivot plus `(0, cutterSize/2, 0)` rotated about X by
`-π/4`. -/
theorem buildCutterProps_topFront45 :
    cutPivot ⟨1, 1, 1⟩ ⟨"c", .top, 45, some .front, none⟩ = ⟨0, 1 / 2, -(1 / 2)⟩ ∧
    cutRotationAngle ⟨"c", .top, 45, some .front, none⟩ = -1 * 1 * (Real.pi / 4) ∧
    (buildCutterProps ⟨1, 1, 1⟩ ⟨"c", .top, 45, some .front, none⟩).rotation
      = ⟨-(Real.pi / 4), 0, 0⟩ ∧
    (buildCutterProps ⟨1, 1, 1⟩ ⟨"c", .top, 45, some .front, none⟩).position
      = cutPivot ⟨1, 1, 1⟩ ⟨"c", .top, 45, some .front, none⟩
        + rotateVec3 ⟨0, cutterSizeOf ⟨1, 1, 1⟩ / 2, 0⟩ Axis.x (-(Real.pi / 4)) := by
  have hangle : cutRotationAngle ⟨"c", .top, 45, some .front, none⟩ = -(Real.pi / 4) := by
    simp [cutRotationAngle, resolvedEdge, FACE_CONFIG, EDGE_DIR]
    ring
  refine ⟨?_, ?_, ?_, ?_⟩
  · ext <;>
      simp [cutPivot, resolvedEdge, FACE_CONFIG, EDGE_DIR, otherAxis, halfDimOf,
        Vec3.setAxis] <;> norm_num
  · rw [hangle]; ring
  · simp only [buildCutterProps, FACE_CONFIG, hangle]
    ext <;> simp [Vec3.setAxis]
  · simp only [buildCutterProps, FACE_CONFIG, hangle, cutterSizeOf_unit]
    ext <;>
      simp [Vec3.setAxis, Vec3.add_def, rotateVec3] <;> norm_num

/-- Claim C3 counterexample: for the unit cube, `face='top', edge='front',
angle=0` and partial depth `1/2`, the cutter's near face sits at height `0`,
not on the face plane `y = 1/2`: the position's normal component minus half
the cutter size differs from `normalDir · halfDim`. -/
theorem zeroAngle_depth_counterexample :
    (buildCutterProps ⟨1, 1, 1⟩ ⟨"c", .top, 0, some .front, some (1 / 2)⟩).position.y
        - cutterSizeOf ⟨1, 1, 1⟩ / 2
      ≠ (FACE_CONFIG .top).normalDir * halfDimOf ⟨1, 1, 1⟩ Axis.y := by
  have hval : (buildCutterProps ⟨1, 1, 1⟩ ⟨"c", .top, 0, some .front, some (1 / 2)⟩).position.y
      - cutterSizeOf ⟨1, 1, 1⟩ / 2 = 0 := by
    simp [buildCutterProps, cutPivot, cutRotationAngle, resolvedEdge, FACE_CONFIG,
      EDGE_DIR, otherAxis, halfDimOf, dimAlong, Vec3.setAxis, Vec3.add_def,
      rotateVec3, cutterSizeOf_unit, Vec3.get]
    norm_num [cutterSizeOf]
  rw [hval]
  norm_num [FACE_CONFIG, halfDimOf]

/-- Claim C3 (amended): for every dimensions, face, entry edge and optional
depth, a cut with `angle = 0` yields a cutter pose with zero rotation whose
near face lies on the plane inset by `fullDim − depth` along the normal from
the target face — coplanar with the face itself exactly when no depth is
given (full through-cut). -/
theorem zeroAngle_cut_pose (dims : Dimensions) (face : CutFace) (edge : Option CutEdge)
    (depth : Option ℝ) :
    (buildCutterProps dims ⟨"c", face, 0, edge, depth⟩).rotation = ⟨0, 0, 0⟩ ∧
    (buildCutterProps dims ⟨"c", face, 0, edge, depth⟩).position.get
          (FACE_CONFIG face).normalAxis
        - (FACE_CONFIG face).normalDir * cutterSizeOf dims / 2
      = (FACE_CONFIG face).normalDir * halfDimOf dims (FACE_CONFIG face).normalAxis
        - (FACE_CONFIG face).normalDir *
            (match depth with
             | none => 0
             | some dpt => dimAlong dims (FACE_CONFIG face).normalAxis - dpt) := by
  have hangle : cutRotationAngle ⟨"c", face, 0, edge, depth⟩ = 0 := by
    simp [cutRotationAngle]
  constructor
  · simp only [buildCutterProps, hangle]
    cases face <;> ext <;> simp [FACE_CONFIG, Vec3.setAxis]
  · simp only [buildCutterProps, hangle, rotateVec3_zero_angle]
    rcases depth with _ | dpt <;> rcases edge with _ | e <;> cases face <;>
      simp [cutPivot, resolvedEdge, FACE_CONFIG, DEFAULT_EDGE, EDGE_DIR, otherAxis,
        halfDimOf, dimAlong, Vec3.setAxis, Vec3.add_def, Vec3.get] <;>
      try cases e <;>
        simp [EDGE_DIR, Vec3.setAxis, Vec3.get] <;> ring

/-- Claim C6: for every dimensions and angle, the `top/front` and `top/back`
cutter poses at the same angle are mirror images across the `z = 0` plane:
the positions differ only by negating the `z` component, and the rotation
triples are negatives of each other. -/
theorem topFrontBack_mirror (w h d θ : ℝ) (h0 : 0 ≤ θ) (h89 : θ ≤ 89) :
    (buildCutterProps ⟨w, h, d⟩ ⟨"c", .top, θ, some .front, none⟩).position =
      ⟨(buildCutterProps ⟨w, h, d⟩ ⟨"c", .top, θ, some .back, none⟩).position.x,
       (buildCutterProps ⟨w, h, d⟩ ⟨"c", .top, θ, some .back, none⟩).position.y,
       -(buildCutterProps ⟨w, h, d⟩ ⟨"c", .top, θ, some .back, none⟩).position.z⟩ ∧
    (buildCutterProps ⟨w, h, d⟩ ⟨"c", .top, θ, some .front, none⟩).rotation =
      ⟨-(buildCutterProps ⟨w, h, d⟩ ⟨"c", .top, θ, some .back, none⟩).rotation.x,
       -(buildCutterProps ⟨w, h, d⟩ ⟨"c", .top, θ, some .back, none⟩).rotation.y,
       -(buildCutterProps ⟨w, h, d⟩ ⟨"c", .top, θ, some .back, none⟩).rotation.z⟩ := by
  constructor <;>
    ext <;>
      simp [buildCutterProps, cutPivot, cutRotationAngle, resolvedEdge, FACE_CONFIG,
        EDGE_DIR, otherAxis, halfDimOf, Vec3.setAxis, Vec3.add_def, rotateVec3,
        Real.cos_neg, Real.sin_neg] <;> ring

/-- Claim C6 witness: the mirror relation at dimensions `(1,1,1)` and angle
`45`, with the range hypotheses discharged. -/
theorem topFrontBack_mirror_witness :
    (buildCutterProps ⟨1, 1, 1⟩ ⟨"c", .top, 45, some .front, none⟩).position =
      ⟨(buildCutterProps ⟨1, 1, 1⟩ ⟨"c", .top, 45, some .back, none⟩).position.x,
       (buildCutterProps ⟨1, 1, 1⟩ ⟨"c", .top, 45, some .back, none⟩).position.y,
       -(buildCutterProps ⟨1, 1, 1⟩ ⟨"c", .top, 45, some .back, none⟩).position.z⟩ ∧
    (buildCutterProps ⟨1, 1, 1⟩ ⟨"c", .top, 45, some .front, none⟩).rotation =
      ⟨-(buildCutterProps ⟨1, 1, 1⟩ ⟨"c", .top, 45, some .back, none⟩).rotation.x,
       -(buildCutterProps ⟨1, 1, 1⟩ ⟨"c", .top, 45, some .back, none⟩).rotation.y,
       -(buildCutterProps ⟨1, 1, 1⟩ ⟨"c", .top, 45, some .back, none⟩).rotation.z⟩ :=
  topFrontBack_mirror 1 1 1 45 (by norm_num) (by norm_num)

/-- Conjugating by a product of quaternions is conjugating by the right
factor, then by the left factor (helper; a polynomial identity). -/
theorem conjApplyVec_mul (v : Vec3) (a b : Quat) :
    conjApplyVec v (quatMul a b) = conjApplyVec (conjApplyVec v b) a := by
  ext <;> simp only [conjApplyVec, quatMul, quatConjugate, quatPure, quatVecPart] <;> ring

/-- The squared quaternion norm is multiplicative (helper). -/
theorem quatNormSq_mul (a b : Quat) :
    quatNormSq (quatMul a b) = quatNormSq a * quatNormSq b := by
  simp only [quatNormSq, quatMul]
  ring

/-- On unit quaternions, the three.js `applyQuaternion` formula agrees with
true quaternion conjugation (helper). -/
theorem vecApplyQuaternion_eq_conj (v : Vec3) (q : Quat) (h : quatNormSq q = 1) :
    vecApplyQuaternion v q = conjApplyVec v q := by
  simp only [quatNormSq] at h
  ext
  · simp only [vecApplyQuaternion, conjApplyVec, quatMul, quatConjugate, quatPure, quatVecPart]
    linear_combination (-v.x) * h
  · simp only [vecApplyQuaternion, conjApplyVec, quatMul, quatConjugate, quatPure, quatVecPart]
    linear_combination (-v.y) * h
  · simp only [vecApplyQuaternion, conjApplyVec, quatMul, quatConjugate, quatPure, quatVecPart]
    linear_combination (-v.z) * h

/-- The quaternion built from an XYZ Euler triple is a unit quaternion
(helper). -/
theorem quatNormSq_fromEuler (rot : Vec3) : quatNormSq (quatFromEuler rot) = 1 := by
  simp only [quatNormSq, quatFromEuler]
  linear_combination
    (Real.sin (rot.y / 2) ^ 2 + Real.cos (rot.y / 2) ^ 2) *
        (Real.sin (rot.z / 2) ^ 2 + Real.cos (rot.z / 2) ^ 2) *
        Real.sin_sq_add_cos_sq (rot.x / 2)
      + (Real.sin (rot.z / 2) ^ 2 + Real.cos (rot.z / 2) ^ 2) *
          Real.sin_sq_add_cos_sq (rot.y / 2)
      + Real.sin_sq_add_cos_sq (rot.z / 2)

/-- The quaternion built from a coordinate axis and an angle is a unit
quaternion (helper). -/
theorem quatNormSq_fromAxisAngle (a : Axis) (θ : ℝ) :
    quatNormSq (quatFromAxisAngle (axisVec a) θ) = 1 := by
  cases a <;> simp only [quatNormSq, quatFromAxisAngle, axisVec] <;>
    linear_combination Real.sin_sq_add_cos_sq (θ / 2)

/-- Claim C4: `addRotationOnAxis` applies the increment as a world-frame
left multiplication: the quaternion it decomposes is `delta ∘ current`, so
its rotation map is the fixed-world-axis rotation composed after the map of
`current`; in particular `addRotationOnAxis(identity, y, π/2)` applied via
`applyEulerToVec` to `(1,0,0)` yields `(0,0,-1)`. -/
theorem addRotationOnAxis_world_frame :
    (∀ (rotation : Vec3) (axis : Axis) (angle : ℝ) (v : Vec3),
        vecApplyQuaternion v (nextWorldQuat rotation axis angle)
          = vecApplyQuaternion (vecApplyQuaternion v (quatFromEuler rotation))
              (quatFromAxisAngle (axisVec axis) angle)) ∧
    applyEulerToVec ⟨1, 0, 0⟩ (addRotationOnAxis ⟨0, 0, 0⟩ Axis.y (Real.pi / 2))
      = ⟨0, 0, -1⟩ := by
  constructor
  · intro rotation axis angle v
    have h1 := quatNormSq_fromAxisAngle axis angle
    have h2 := quatNormSq_fromEuler rotation
    have h3 : quatNormSq (nextWorldQuat rotation axis angle) = 1 := by
      rw [nextWorldQuat, quatNormSq_mul, h1, h2, mul_one]
    rw [vecApplyQuaternion_eq_conj _ _ h3, vecApplyQuaternion_eq_conj _ _ h2,
      vecApplyQuaternion_eq_conj _ _ h1, nextWorldQuat, conjApplyVec_mul]
  · have hsqrt2 : Real.sqrt 2 * Real.sqrt 2 = 2 :=
      Real.mul_self_sqrt (by norm_num)
    have e1 : quatFromEuler ⟨0, 0, 0⟩ = ⟨0, 0, 0, 1⟩ := by
      ext <;> simp [quatFromEuler]
    have e2 : nextWorldQuat ⟨0, 0, 0⟩ Axis.y (Real.pi / 2)
        = ⟨0, Real.sqrt 2 / 2, 0, Real.sqrt 2 / 2⟩ := by
      have harg : Real.pi / 2 / 2 = Real.pi / 4 := by ring
      rw [nextWorldQuat, e1]
      simp only [quatFromAxisAngle, axisVec, quatMul, harg, Real.sin_pi_div_four,
        Real.cos_pi_div_four]
      ext <;> simp
    have hm : (2 : ℝ) * (0 * 0 + Real.sqrt 2 / 2 * (Real.sqrt 2 / 2)) = 1 := by
      linear_combination hsqrt2 / 2
    have e3 : eulerFromQuat ⟨0, Real.sqrt 2 / 2, 0, Real.sqrt 2 / 2⟩
        = ⟨0, Real.pi / 2, 0⟩ := by
      unfold eulerFromQuat
      dsimp only
      rw [hm]
      rw [if_neg (by norm_num : ¬(|(1 : ℝ)| < 0.9999999))]
      ext <;> simp [atan2, clamp, Real.arctan_zero, Real.arcsin_one] <;> norm_num
    have e4 : applyEulerToVec ⟨1, 0, 0⟩ ⟨0, Real.pi / 2, 0⟩ = ⟨0, 0, -1⟩ := by
      unfold applyEulerToVec
      ext <;>
        simp [Real.pi_ne_zero, Real.cos_pi_div_two, Real.sin_pi_div_two]
    show applyEulerToVec ⟨1, 0, 0⟩
        (eulerFromQuat (nextWorldQuat ⟨0, 0, 0⟩ Axis.y (Real.pi / 2))) = ⟨0, 0, -1⟩
    rw [e2, e3, e4]

open Classical in
/-- Claim C7: `buildBetaMiterCutterProps` returns the `-angle` candidate's
pose exactly when the probe point is inside the `-angle` candidate's cube
and not inside the `+angle` candidate's cube; in every other case (both,
neither, or only `+angle`) it returns the `+angle` candidate's pose. -/
theorem betaMiter_candidate_selection (dims : Dimensions) (cut : BetaMiterCut) :
    buildBetaMiterCutterProps dims cut =
      if betaMinusHits dims cut ∧ ¬betaPlusHits dims cut
      then betaCandidatePose dims cut (betaMinusRotation cut)
      else betaCandidatePose dims cut (betaPlusRotation cut) := by
  unfold buildBetaMiterCutterProps betaCandidatePose
  by_cases hp : betaPlusHits dims cut <;> by_cases hm : betaMinusHits dims cut <;>
    simp [hp, hm]

/-- Writing back the mapped active box list and reading it again yields the
mapped list (helper; in component-builder mode with no template both sides
are the empty list). -/
theorem getActive_setActive_map (state : ProjectState) (f : Box → Box) :
    getActiveBoxes (setActiveBoxes state ((getActiveBoxes state).map f))
      = (getActiveBoxes state).map f := by
  rcases state with ⟨proj, sel, load, mode, tmpl, lib, clip, snap, toast, hist, hidx, anchor⟩
  cases mode <;> cases tmpl <;> simp [getActiveBoxes, setActiveBoxes]

/-- `rotateSelectedBox` replaces only `position` and `rotation` (helper). -/
theorem rotateSelectedBox_fields (pivot : Vec3) (axis : Axis) (angle : ℝ) (b : Box) :
    (rotateSelectedBox pivot axis angle b).id = b.id ∧
    (rotateSelectedBox pivot axis angle b).dimensions = b.dimensions ∧
    (rotateSelectedBox pivot axis angle b).materialId = b.materialId ∧
    (rotateSelectedBox pivot axis angle b).label = b.label ∧
    (rotateSelectedBox pivot axis angle b).groupId = b.groupId ∧
    (rotateSelectedBox pivot axis angle b).locked = b.locked ∧
    (rotateSelectedBox pivot axis angle b).hidden = b.hidden ∧
    (rotateSelectedBox pivot axis angle b).cuts = b.cuts ∧
    (rotateSelectedBox pivot axis angle b).betaMiterCuts = b.betaMiterCuts :=
  ⟨rfl, rfl, rfl, rfl, rfl, rfl, rfl, rfl, rfl⟩

/-- Claim C9: frame conditions of the `ROTATE_SELECTED` reducer branch. If
no unlocked box is selected the whole state is returned unchanged; the
resulting active box list has the same length; a box that is unselected or
locked reappears unchanged at its position; and every resulting box agrees
with its input box on every field other than `position` and `rotation`. -/
theorem rotateSelected_frame (state : ProjectState) (ids : List String) (angle : ℝ)
    (axis : Axis) :
    ((∀ b ∈ getActiveBoxes state, b.id ∈ ids → b.locked = true) →
        reduceRotateSelected state ids angle axis = state) ∧
    (getActiveBoxes (reduceRotateSelected state ids angle axis)).length
        = (getActiveBoxes state).length ∧
    ∀ (i : ℕ) (h1 : i < (getActiveBoxes state).length)
        (h2 : i < (getActiveBoxes (reduceRotateSelected state ids angle axis)).length),
      (((getActiveBoxes state).get ⟨i, h1⟩).id ∉ ids ∨
            ((getActiveBoxes state).get ⟨i, h1⟩).locked = true →
          (getActiveBoxes (reduceRotateSelected state ids angle axis)).get ⟨i, h2⟩
            = (getActiveBoxes state).get ⟨i, h1⟩) ∧
      ((getActiveBoxes (reduceRotateSelected state ids angle axis)).get ⟨i, h2⟩).id
          = ((getActiveBoxes state).get ⟨i, h1⟩).id ∧
      ((getActiveBoxes (reduceRotateSelected state ids angle axis)).get ⟨i, h2⟩).dimensions
          = ((getActiveBoxes state).get ⟨i, h1⟩).dimensions ∧
      ((getActiveBoxes (reduceRotateSelected state ids angle axis)).get ⟨i, h2⟩).materialId
          = ((getActiveBoxes state).get ⟨i, h1⟩).materialId ∧
      ((getActiveBoxes (reduceRotateSelected state ids angle axis)).get ⟨i, h2⟩).label
          = ((getActiveBoxes state).get ⟨i, h1⟩).label ∧
      ((getActiveBoxes (reduceRotateSelected state ids angle axis)).get ⟨i, h2⟩).groupId
          = ((getActiveBoxes state).get ⟨i, h1⟩).groupId ∧
      ((getActiveBoxes (reduceRotateSelected state ids angle axis)).get ⟨i, h2⟩).locked
          = ((getActiveBoxes state).get ⟨i, h1⟩).locked ∧
      ((getActiveBoxes (reduceRotateSelected state ids angle axis)).get ⟨i, h2⟩).hidden
          = ((getActiveBoxes state).get ⟨i, h1⟩).hidden ∧
      ((getActiveBoxes (reduceRotateSelected state ids angle axis)).get ⟨i, h2⟩).cuts
          = ((getActiveBoxes state).get ⟨i, h1⟩).cuts ∧
      ((getActiveBoxes (reduceRotateSelected state ids angle axis)).get ⟨i, h2⟩).betaMiterCuts
          = ((getActiveBoxes state).get ⟨i, h1⟩).betaMiterCuts := by
  by_cases hempty :
      ((getActiveBoxes state).filter (fun b => decide (b.id ∈ ids) && !b.locked)).length = 0
  · have hred : reduceRotateSelected state ids angle axis = state := by
      unfold reduceRotateSelected
      rw [if_pos hempty]
    rw [hred]
    refine ⟨fun _ => rfl, rfl, fun i h1 h2 => ?_⟩
    exact ⟨fun _ => rfl, rfl, rfl, rfl, rfl, rfl, rfl, rfl, rfl, rfl⟩
  · have hred : reduceRotateSelected state ids angle axis
        = setActiveBoxes state ((getActiveBoxes state).map (fun box =>
            if box.id ∉ ids ∨ box.locked = true then box
            else rotateSelectedBox
              (rotationPivotOf
                (((getActiveBoxes state).filter
                    (fun b => decide (b.id ∈ ids) && !b.locked)).map
                  (fun b => boxVisualCenter b.position b.dimensions b.rotation)))
              axis angle box)) := by
      unfold reduceRotateSelected
      rw [if_neg hempty]
    rw [hred, getActive_setActive_map]
    refine ⟨fun hall => ?_, by simp, fun i h1 h2 => ?_⟩
    · exfalso
      apply hempty
      rw [List.length_eq_zero, List.filter_eq_nil_iff]
      intro b hb
      simp only [Bool.and_eq_true, decide_eq_true_eq, Bool.not_eq_true', not_and]
      intro hid
      simp [hall b hb hid]
    · rw [List.get_eq_getElem, List.get_eq_getElem, List.getElem_map]
      by_cases hguard : ((getActiveBoxes state)[i]).id ∉ ids ∨
          ((getActiveBoxes state)[i]).locked = true
      · rw [if_pos hguard]
        exact ⟨fun _ => rfl, rfl, rfl, rfl, rfl, rfl, rfl, rfl, rfl, rfl⟩
      · rw [if_neg hguard]
        refine ⟨fun hg => absurd hg hguard, ?_⟩
        exact rotateSelectedBox_fields _ _ _ _

end Sawdust
